import Mathlib

/-!
Verification of the publication-synchronizer core of a small CMS backend
(`main.py`): the publish/unpublish pipelines, the sitemap document editor,
the FTP remote-store adapter, and the CRUD endpoints driving them.

External effects (FTP connection, template rendering, HTTP ping, Google
indexing call) are modelled by explicit outcome oracles passed in as
environment records; each embedded function returns its boolean result
together with a trace of the side-effecting steps it attempted, so that
ordering and best-effort properties can be stated.
-/

/-- Default of the `SITE_URL` environment variable in `main.py`. -/
def SITE_URL : String := "https://frunza-asociatii.ro"

/-- Default of the `ARTICLES_URL_SUBDIR` environment variable. -/
def ARTICLES_URL_SUBDIR : String := "noutati"

/-- `public_url = f"{SITE_URL}/{ARTICLES_URL_SUBDIR}/{article.slug}"`. -/
def publicUrl (slug : String) : String :=
  SITE_URL ++ "/" ++ ARTICLES_URL_SUBDIR ++ "/" ++ slug

/-- `file_name = f"{article.slug}.html"`. -/
def articleFileName (slug : String) : String := slug ++ ".html"

/-- Article status: the code stores the strings `"Draft"` / `"Published"`. -/
inductive Status
  | draft
  | published
deriving DecidableEq

/-- `str.lower()`, written over the character list so that concrete
instances evaluate in the kernel (the status strings are ASCII). -/
def strLower (s : String) : String := String.mk (s.data.map Char.toLower)

/-- `"Published" if payload.get('status', '').lower() == "published" else "Draft"`. -/
def normStatus (raw : String) : Status :=
  if strLower raw = "published" then Status.published else Status.draft

/-! ## 4. FTP UTILS (remote store adapter) -/

/-- Outcome of the first `ftp.cwd(remote_dir)` in `upload_file_ftp`:
it succeeds, raises `error_perm` (caught, triggering `mkd`), or raises
some other exception (not caught by the inner handler). -/
inductive CwdOutcome
  | ok
  | permError
  | otherError
deriving DecidableEq

/-- Oracle for the external effects of `upload_file_ftp`. -/
structure FtpPutEnv where
  /-- `get_ftp_connection()` (connect + login) succeeds. -/
  connectOk : Bool
  /-- outcome of the first `ftp.cwd(remote_dir)`. -/
  cwdResult : CwdOutcome
  /-- the recovery `ftp.mkd(remote_dir); ftp.cwd(remote_dir)` succeeds. -/
  mkdOk : Bool
  /-- `open(local_path, 'rb')` + `ftp.storbinary(...)` succeed. -/
  storOk : Bool
deriving DecidableEq

/-- `upload_file_ftp(local_path, remote_filename, remote_dir)`:
connect; `cwd`, on `error_perm` try `mkd` + `cwd` (bare `except: return False`);
then `storbinary`; any other exception falls to the outer handler which
logs and returns `False`. -/
def upload_file_ftp (env : FtpPutEnv) : Bool :=
  if env.connectOk then
    match env.cwdResult with
    | CwdOutcome.ok => env.storOk
    | CwdOutcome.permError => if env.mkdOk then env.storOk else false
    | CwdOutcome.otherError => false
  else false

/-- The directory-ensuring phase of `upload_file_ftp` succeeds: the initial
`cwd` worked, or it raised `error_perm` and `mkd` + `cwd` worked. -/
def dirEnsured (env : FtpPutEnv) : Bool :=
  match env.cwdResult with
  | CwdOutcome.ok => true
  | CwdOutcome.permError => env.mkdOk
  | CwdOutcome.otherError => false

/-- What happened on the remote side during `delete_file_ftp`
(connect, `cwd`, `ftp.delete`). -/
inductive DeleteOutcome
  | deleted
  | notFound
  | connectionError
  | authFailed
  | permissionDenied
deriving DecidableEq

/-- `delete_file_ftp(remote_filename, remote_dir)`: the whole body is wrapped
in `try: ... return True` / bare `except: return True` — every outcome,
error or not, is reported as success. -/
def delete_file_ftp (outcome : DeleteOutcome) : Bool :=
  match outcome with
  | DeleteOutcome.deleted => true
  | DeleteOutcome.notFound => true
  | DeleteOutcome.connectionError => true
  | DeleteOutcome.authFailed => true
  | DeleteOutcome.permissionDenied => true

/-- Oracle for the external effects of `download_from_cpanel`. -/
structure FtpGetEnv where
  connectOk : Bool
  cwdOk : Bool
  /-- `retrbinary` (and the local file write) succeed. -/
  retrOk : Bool
deriving DecidableEq

/-- `download_from_cpanel(remote_filename, local_path, remote_dir)`:
returns `True` on success, `False` on any exception. -/
def download_from_cpanel (env : FtpGetEnv) : Bool :=
  env.connectOk && env.cwdOk && env.retrOk

/-! ## 5. SEO utils: sitemap document editing -/

/-- One `<url>` element of the sitemap: a `<loc>` text and an optional
`<lastmod>` child. -/
structure UrlEntry where
  loc : String
  lastmod : Option String
deriving DecidableEq

/-- The editing loop of `update_sitemap` on the parsed `<urlset>`:
walk the `<url>` entries; at the first one whose `<loc>` text equals
`newUrl` set its `<lastmod>` text to today *if that child exists* and stop
(`break`); if no entry matches, append a fresh entry with
`<lastmod> = today` at the end (`root.append`). -/
def sitemapUpsert : List UrlEntry → String → String → List UrlEntry
  | [], newUrl, today => [⟨newUrl, some today⟩]
  | e :: rest, newUrl, today =>
    if e.loc = newUrl then
      ⟨e.loc, e.lastmod.map fun _ => today⟩ :: rest
    else
      e :: sitemapUpsert rest newUrl today

/-- Side-effecting steps attempted by the sitemap editors. -/
inductive SeoEvent
  | download
  | uploadSitemap (entries : List UrlEntry)
  | ping (target : String)
deriving DecidableEq

/-- `es` contains a `requests.get` ping event. -/
def containsPing (es : List SeoEvent) : Bool :=
  es.any fun e =>
    match e with
    | SeoEvent.ping _ => true
    | _ => false

/-- `es` contains a sitemap re-upload event. -/
def containsSitemapUpload (es : List SeoEvent) : Bool :=
  es.any fun e =>
    match e with
    | SeoEvent.uploadSitemap _ => true
    | _ => false

/-- Oracle for the external effects of `update_sitemap`. -/
structure UpdateSitemapEnv where
  /-- Result of `download_from_cpanel` + existence/parse of the local file:
  `none` — no local `sitemap.xml` after the download attempt;
  `some none` — a file exists but `ET.parse` raises (swallowed, `root`
  stays `None`); `some (some d)` — parsed entries. -/
  localDoc : Option (Option (List UrlEntry))
  /-- result of `upload_file_ftp` for the re-upload (ignored by the code). -/
  uploadOk : Bool
  /-- the `requests.get` ping raises (timeout / connection error). -/
  pingRaises : Bool
  /-- `datetime.utcnow().strftime("%Y-%m-%d")`. -/
  today : String
deriving DecidableEq

/-- `update_sitemap(new_url)`: download (result ignored), parse or start an
empty `<urlset>`, upsert the entry, write and re-upload (upload result
ignored), then `requests.get` the Google ping; `return True` — unless any
step raised, in which case the outer handler returns `False`.  The only
modelled raising step is the ping. -/
def update_sitemap (env : UpdateSitemapEnv) (newUrl : String) :
    Bool × List SeoEvent :=
  let root : List UrlEntry :=
    match env.localDoc with
    | some (some d) => d
    | _ => []
  let edited := sitemapUpsert root newUrl env.today
  let events := [SeoEvent.download, SeoEvent.uploadSitemap edited,
                 SeoEvent.ping (SITE_URL ++ "/sitemap.xml")]
  if env.pingRaises then (false, events) else (true, events)

/-- Oracle for the external effects of `remove_from_sitemap`. -/
structure RemoveSitemapEnv where
  /-- as in `UpdateSitemapEnv.localDoc`; here a parse error is *not*
  swallowed locally — `ET.parse` raising falls to the outer handler. -/
  localDoc : Option (Option (List UrlEntry))
  /-- result of `upload_file_ftp` for the re-upload (ignored by the code). -/
  uploadOk : Bool
deriving DecidableEq

/-- `remove_from_sitemap(target_url)`: download; `return False` if no local
file; parse (raising → outer `except` → `False`); remove *every* entry whose
`<loc>` equals `target_url`; if any was found, write + re-upload (upload
result ignored) and `return True`, else `return False`.  No ping is sent. -/
def remove_from_sitemap (env : RemoveSitemapEnv) (targetUrl : String) :
    Bool × List SeoEvent :=
  match env.localDoc with
  | none => (false, [SeoEvent.download])
  | some none => (false, [SeoEvent.download])
  | some (some d) =>
    if d.any (fun e => e.loc == targetUrl) then
      (true, [SeoEvent.download,
              SeoEvent.uploadSitemap (d.filter (fun e => !(e.loc == targetUrl)))])
    else
      (false, [SeoEvent.download])

/-! ## 6. Pipelines (publish / unpublish) -/

/-- Oracle for the external effects of `publish_content_pipeline`. -/
structure PublishEnv where
  /-- `env.get_template(...)` + `template.render(...)` + the local file
  write succeed (template/content errors raise and are caught by the
  pipeline's own handler, before any network I/O). -/
  renderOk : Bool
  /-- result of `upload_file_ftp(local_path, file_name, ARTICLES_UPLOAD_PATH_FTP)`. -/
  uploadOk : Bool
  /-- result of `update_sitemap(public_url)` (ignored by the code). -/
  sitemapOk : Bool
  /-- result of `request_google_indexing(public_url, "URL_UPDATED")` (ignored). -/
  indexOk : Bool
deriving DecidableEq

/-- Network-touching steps attempted by `publish_content_pipeline`
(the sitemap call and the indexing call each do their own network I/O and
swallow their own exceptions). -/
inductive PubStep
  | uploadArticleHtml (fileName : String) (result : Bool)
  | sitemapUpsertCall (url : String) (result : Bool)
  | googleIndexingCall (url : String) (result : Bool)
deriving DecidableEq

/-- `publish_content_pipeline(article)`: render + write the HTML locally
(raising → `except` → `False`, nothing attempted remotely); then upload;
only if the upload returned `True`, call `update_sitemap` and
`request_google_indexing` (both results discarded) and return `True`;
otherwise return `False`. -/
def publish_content_pipeline (env : PublishEnv) (slug : String) :
    Bool × List PubStep :=
  if env.renderOk then
    if env.uploadOk then
      (true, [PubStep.uploadArticleHtml (articleFileName slug) true,
              PubStep.sitemapUpsertCall (publicUrl slug) env.sitemapOk,
              PubStep.googleIndexingCall (publicUrl slug) env.indexOk])
    else
      (false, [PubStep.uploadArticleHtml (articleFileName slug) false])
  else
    (false, [])

/-- Oracle for the external effects of `unpublish_content_pipeline`. -/
structure UnpubEnv where
  deleteOutcome : DeleteOutcome
  /-- result of `remove_from_sitemap(public_url)` (ignored by the code). -/
  removeOk : Bool
  /-- result of `request_google_indexing(public_url, "URL_DELETED")` (ignored). -/
  indexOk : Bool
deriving DecidableEq

/-- Steps attempted by `unpublish_content_pipeline`. -/
inductive UnpubStep
  | deleteArticleHtml (fileName : String) (result : Bool)
  | sitemapRemoveCall (url : String) (result : Bool)
  | googleDeleteCall (url : String) (result : Bool)
deriving DecidableEq

/-- `unpublish_content_pipeline(slug)`: call `delete_file_ftp`,
`remove_from_sitemap`, `request_google_indexing` in that order,
unconditionally, discarding all three results, and return `True`
(none of the three callees lets an exception escape). -/
def unpublish_content_pipeline (env : UnpubEnv) (slug : String) :
    Bool × List UnpubStep :=
  (true,
   [UnpubStep.deleteArticleHtml (articleFileName slug)
      (delete_file_ftp env.deleteOutcome),
    UnpubStep.sitemapRemoveCall (publicUrl slug) env.removeOk,
    UnpubStep.googleDeleteCall (publicUrl slug) env.indexOk])

/-! ## 7. CRUD endpoints: synchronizer task scheduling -/

/-- A background task enqueued on `background_tasks` by the CRUD layer. -/
inductive SyncAction
  | publish (slug : String)
  | unpublish (slug : String)
deriving DecidableEq

/-- The task-enqueueing logic at the end of `update_article`
(after the commit, `article.slug = new_slug`, `article.status = new_status`). -/
def updateTasks (oldStatus newStatus : Status) (oldSlug newSlug : String) :
    List SyncAction :=
  if oldStatus = Status.published ∧ newStatus = Status.draft then
    [SyncAction.unpublish oldSlug]
  else if oldStatus = Status.published ∧ newStatus = Status.published ∧
      oldSlug ≠ newSlug then
    [SyncAction.unpublish oldSlug, SyncAction.publish newSlug]
  else if newStatus = Status.published then
    [SyncAction.publish newSlug]
  else
    []

/-- The task-enqueueing logic at the end of `patch_status`
(the patch endpoint never changes the slug). -/
def patchTasks (oldStatus newStatus : Status) (slug : String) :
    List SyncAction :=
  if oldStatus = Status.published ∧ newStatus = Status.draft then
    [SyncAction.unpublish slug]
  else if newStatus = Status.published then
    [SyncAction.publish slug]
  else
    []

/-- The task-enqueueing logic of `create_article`:
`if status == "Published": background_tasks.add_task(publish_content_pipeline, ...)`. -/
def createTasks (status : Status) (slug : String) : List SyncAction :=
  if status = Status.published then [SyncAction.publish slug] else []

/-- The task-enqueueing logic of `delete_article`:
`if was_published: background_tasks.add_task(unpublish_content_pipeline, slug)`. -/
def deleteTasks (status : Status) (slug : String) : List SyncAction :=
  if status = Status.published then [SyncAction.unpublish slug] else []

/-- Modelled from the spec: the state machine table of section 4.1, keyed by
(old status, new status, old slug, new slug). -/
def specMachine (oldStatus newStatus : Status) (oldSlug newSlug : String) :
    List SyncAction :=
  match oldStatus, newStatus with
  | Status.draft, Status.draft => []
  | Status.draft, Status.published => [SyncAction.publish newSlug]
  | Status.published, Status.draft => [SyncAction.unpublish oldSlug]
  | Status.published, Status.published =>
    if oldSlug = newSlug then [SyncAction.publish newSlug]
    else [SyncAction.unpublish oldSlug, SyncAction.publish newSlug]

/-- Modelled from the spec: the `any → deleted` row of the state machine
table — if the article was Published, `Unpublish(oldSlug)`. -/
def specDeleteTasks (oldStatus : Status) (oldSlug : String) : List SyncAction :=
  if oldStatus = Status.published then [SyncAction.unpublish oldSlug] else []

/-- HTTP outcome of a CRUD request: the JSON success body, or an
`HTTPException` with a status code. -/
inductive HttpResponse
  | success
  | httpError (code : Nat)
deriving DecidableEq

/-- Run one enqueued background task against the pipeline oracles,
returning its boolean result (which FastAPI's background runner discards). -/
def runSyncAction (penv : PublishEnv) (uenv : UnpubEnv) :
    SyncAction → Bool
  | SyncAction.publish slug => (publish_content_pipeline penv slug).1
  | SyncAction.unpublish slug => (unpublish_content_pipeline uenv slug).1

/-- `create_article` endpoint: 400 if the slug already exists; otherwise
commit the row, enqueue the create tasks as *background* tasks (run after
the response), and answer `{"status": "success"}`.  The second component is
the list of background-task results, produced after the response. -/
def create_request (penv : PublishEnv) (uenv : UnpubEnv)
    (slugExists : Bool) (rawStatus slug : String) :
    HttpResponse × List Bool :=
  if slugExists then
    (HttpResponse.httpError 400, [])
  else
    (HttpResponse.success,
     (createTasks (normStatus rawStatus) slug).map (runSyncAction penv uenv))

/-- `update_article` endpoint (article found): 400 if the slug changed to an
occupied one; otherwise commit and enqueue the update tasks in the
background. -/
def update_request (penv : PublishEnv) (uenv : UnpubEnv)
    (slugTaken : Bool) (oldStatus : Status)
    (oldSlug newSlug rawStatus : String) :
    HttpResponse × List Bool :=
  if newSlug ≠ oldSlug ∧ slugTaken then
    (HttpResponse.httpError 400, [])
  else
    (HttpResponse.success,
     (updateTasks oldStatus (normStatus rawStatus) oldSlug newSlug).map
       (runSyncAction penv uenv))

/-- `patch_status` endpoint (article found): commit the status change and
enqueue the patch tasks in the background. -/
def patch_request (penv : PublishEnv) (uenv : UnpubEnv)
    (oldStatus : Status) (slug rawStatus : String) :
    HttpResponse × List Bool :=
  (HttpResponse.success,
   (patchTasks oldStatus (normStatus rawStatus) slug).map
     (runSyncAction penv uenv))

/-- `delete_article` endpoint (article found): delete the row and enqueue
the delete tasks in the background. -/
def delete_request (penv : PublishEnv) (uenv : UnpubEnv)
    (status : Status) (slug : String) :
    HttpResponse × List Bool :=
  (HttpResponse.success,
   (deleteTasks status slug).map (runSyncAction penv uenv))

/-! ## 8. Article row: `published_at` handling -/

/-- The fields of `ArticleDB` relevant to the `published_at` invariant. -/
structure Article where
  slug : String
  status : Status
  published_at : Option Nat
deriving DecidableEq

/-- The row constructed by `create_article`:
`published_at = datetime.utcnow() if status == "Published" else None`. -/
def new_article_row (status : Status) (slug : String) (now : Nat) : Article :=
  ⟨slug, status, if status = Status.published then some now else none⟩

/-- A later mutation of the row: a full update (may change the slug) or a
status patch; `now` is the `datetime.utcnow()` of that request. -/
inductive ArticleOp
  | update (rawStatus newSlug : String) (now : Nat)
  | patchSt (rawStatus : String) (now : Nat)
deriving DecidableEq

/-- The field assignments of `update_article` / `patch_status`:
set the status; `if new_status == "Published" and not article.published_at:
article.published_at = datetime.utcnow()`; `published_at` is never
assigned anywhere else. -/
def applyOp (a : Article) : ArticleOp → Article
  | ArticleOp.update rawStatus newSlug now =>
    let ns := normStatus rawStatus
    ⟨newSlug, ns,
     if ns = Status.published ∧ a.published_at = none then some now
     else a.published_at⟩
  | ArticleOp.patchSt rawStatus now =>
    let ns := normStatus rawStatus
    ⟨a.slug, ns,
     if ns = Status.published ∧ a.published_at = none then some now
     else a.published_at⟩

/-- The (normalized) status an operation writes. -/
def opStatus : ArticleOp → Status
  | ArticleOp.update rawStatus _ _ => normStatus rawStatus
  | ArticleOp.patchSt rawStatus _ => normStatus rawStatus

/-- The request time of an operation. -/
def opTime : ArticleOp → Nat
  | ArticleOp.update _ _ now => now
  | ArticleOp.patchSt _ now => now

/-- Modelled from the spec: "`published_at` — timestamp set the first time
status transitions into Published, never cleared" — the time of the first
operation in the list that sets status Published, if any. -/
def firstPublishTime : List ArticleOp → Option Nat
  | [] => none
  | op :: rest =>
    if opStatus op = Status.published then some (opTime op)
    else firstPublishTime rest

/-! ## 9. Spec claims stated as predicates (for refutation) -/

/-- Claim C3's universal part for `Remove`: every successful mutation pings
the search engine with the sitemap address. -/
def successfulMutationAlwaysPings : Prop :=
  ∀ (envr : RemoveSitemapEnv) (u : String),
    (remove_from_sitemap envr u).1 = true →
    containsPing (remove_from_sitemap envr u).2 = true

/-- Claim C7's demand on `Delete`: a transfer error (here a connection
failure) propagates a failure boolean to the caller. -/
def deleteTransferErrorsPropagate : Prop :=
  delete_file_ftp DeleteOutcome.connectionError = false

/-- Claim C8's consequence: whenever the write fails while the directory
exists or was created, `Put` does not report failure. -/
def putToleratesWriteFailure : Prop :=
  ∀ env : FtpPutEnv,
    env.connectOk = true → dirEnsured env = true → env.storOk = false →
    upload_file_ftp env ≠ false

/-- Claim C6's demand on the create path: when the enqueued publish
pipeline fails (render or transfer), the create request answers with an
HTTP error rather than success. -/
def createSurfacesPublishFailure : Prop :=
  ∀ (penv : PublishEnv) (uenv : UnpubEnv) (rawStatus slug : String),
    normStatus rawStatus = Status.published →
    (publish_content_pipeline penv slug).1 = false →
    (create_request penv uenv false rawStatus slug).1 ≠ HttpResponse.success

/-! ## Theorems -/

/-- Claim C1: the synchronizer actions enqueued by update, patch, create and
delete are exactly those of the spec's state machine keyed by
(old status, new status, old slug, new slug): Draft→Draft nothing,
Draft→Published `Publish(new)`, Published→Draft `Unpublish(oldSlug)`,
Published→Published `Publish(new)` when the slug is unchanged and
`Unpublish(oldSlug)` then `Publish(new)` when it changed, and delete of a
Published article `Unpublish(oldSlug)`. -/
theorem C1_sync_state_machine (oldS newS : Status) (oldSlug newSlug slug : String) :
    updateTasks oldS newS oldSlug newSlug = specMachine oldS newS oldSlug newSlug ∧
    patchTasks oldS newS slug = specMachine oldS newS slug slug ∧
    createTasks newS slug = specMachine Status.draft newS slug slug ∧
    deleteTasks oldS slug = specDeleteTasks oldS slug := by
  refine ⟨?_, ?_, ?_, ?_⟩ <;>
    cases oldS <;> cases newS <;>
    by_cases h : oldSlug = newSlug <;>
    simp [updateTasks, patchTasks, createTasks, deleteTasks, specMachine,
      specDeleteTasks, h]

/-- Claim C2: `Publish` succeeds iff rendering and the upload of
`{slug}.html` both succeed; a render failure aborts before any network
step, an upload failure aborts before the sitemap and indexing steps, and
the sitemap / indexing results never change the returned value. -/
theorem C2_publish_result_and_io_order (r u s i : Bool) (slug : String) :
    (publish_content_pipeline ⟨r, u, s, i⟩ slug).1 = (r && u) ∧
    (publish_content_pipeline ⟨false, u, s, i⟩ slug).2 = [] ∧
    (publish_content_pipeline ⟨true, false, s, i⟩ slug).2
      = [PubStep.uploadArticleHtml (articleFileName slug) false] ∧
    ∀ s2 i2 : Bool,
      (publish_content_pipeline ⟨r, u, s, i⟩ slug).1
        = (publish_content_pipeline ⟨r, u, s2, i2⟩ slug).1 := by
  cases r <;> cases u <;> simp [publish_content_pipeline]

/-- Claim C5: `Unpublish` reports no error on any call — a second
consecutive call included, so absence of the remote file is a success
outcome — and all three steps (delete the remote file, remove the sitemap
entry, notify the search engine) are attempted in order regardless of the
outcomes of the preceding steps. -/
theorem C5_unpublish_idempotent (env1 env2 : UnpubEnv) (slug : String) :
    (unpublish_content_pipeline env1 slug).1 = true ∧
    (unpublish_content_pipeline env2 slug).1 = true ∧
    (unpublish_content_pipeline env1 slug).2 =
      [UnpubStep.deleteArticleHtml (articleFileName slug)
         (delete_file_ftp env1.deleteOutcome),
       UnpubStep.sitemapRemoveCall (publicUrl slug) env1.removeOk,
       UnpubStep.googleDeleteCall (publicUrl slug) env1.indexOk] ∧
    delete_file_ftp DeleteOutcome.notFound = true :=
  ⟨rfl, rfl, rfl, rfl⟩

/-- Helper: when no entry matches, `sitemapUpsert` appends exactly one
fresh entry at the end of the document. -/
theorem sitemapUpsert_no_match (s : List UrlEntry) (u d : String)
    (h : ∀ x ∈ s, ¬(x.loc = u)) :
    sitemapUpsert s u d = s ++ [⟨u, some d⟩] := by
  induction s with
  | nil => rfl
  | cons e rest ih =>
    have he : ¬(e.loc = u) := h e (List.mem_cons_self e rest)
    simp only [sitemapUpsert, if_neg he, List.cons_append]
    exact congrArg (e :: ·) (ih fun x hx => h x (List.mem_cons_of_mem e hx))

/-- Helper: at the first matching entry the upsert stops, refreshing that
entry's `lastmod` (when present) in place and leaving everything else as
it was. -/
theorem sitemapUpsert_first_match (pre post : List UrlEntry) (e : UrlEntry)
    (u d : String) (hpre : ∀ x ∈ pre, ¬(x.loc = u)) (he : e.loc = u) :
    sitemapUpsert (pre ++ e :: post) u d
      = pre ++ ⟨e.loc, e.lastmod.map fun _ => d⟩ :: post := by
  induction pre with
  | nil => simp [sitemapUpsert, he]
  | cons a pre ih =>
    have ha : ¬(a.loc = u) := hpre a (List.mem_cons_self a pre)
    simp only [List.cons_append, sitemapUpsert, if_neg ha]
    exact congrArg (a :: ·) (ih fun x hx => hpre x (List.mem_cons_of_mem a hx))

/-- Helper: the number of entries for `u` after an upsert is
`max 1` (the number before). -/
theorem sitemapUpsert_count (s : List UrlEntry) (u d : String) :
    (sitemapUpsert s u d).countP (fun e => e.loc == u)
      = max 1 (s.countP (fun e => e.loc == u)) := by
  induction s with
  | nil => simp [sitemapUpsert]
  | cons e rest ih =>
    by_cases h : e.loc = u
    · have hmax : max 1 (rest.countP (fun e => e.loc == u) + 1)
          = rest.countP (fun e => e.loc == u) + 1 := by omega
      simp [sitemapUpsert, h, List.countP_cons, hmax]
    · simp [sitemapUpsert, h, List.countP_cons, ih]

/-- Claim C4: sitemap `Upsert` treats the document as a set keyed by exact
URL string: with no matching entry it appends exactly one new entry with
`lastmod = now`; with a matching entry it edits that entry in place
(refreshing its `lastmod` date) and appends nothing; and applying
`Upsert(url)` twice adds nothing the second time — the entry count for the
URL is `max 1` (its previous count), so upsert never creates a duplicate
entry. -/
theorem C4_upsert_set_semantics (s : List UrlEntry) (u d : String) :
    (s.countP (fun e => e.loc == u) = 0 →
      sitemapUpsert s u d = s ++ [⟨u, some d⟩]) ∧
    (∀ pre post (e : UrlEntry), (∀ x ∈ pre, ¬(x.loc = u)) → e.loc = u →
      sitemapUpsert (pre ++ e :: post) u d
        = pre ++ ⟨e.loc, e.lastmod.map fun _ => d⟩ :: post) ∧
    (sitemapUpsert (sitemapUpsert s u d) u d).countP (fun e => e.loc == u)
      = (sitemapUpsert s u d).countP (fun e => e.loc == u) ∧
    (sitemapUpsert s u d).countP (fun e => e.loc == u)
      = max 1 (s.countP (fun e => e.loc == u)) := by
  refine ⟨?_, ?_, ?_, sitemapUpsert_count s u d⟩
  · intro h0
    refine sitemapUpsert_no_match s u d fun x hx hxu => ?_
    have hc := List.countP_eq_zero.mp h0 x hx
    simp [hxu] at hc
  · intro pre post e hpre he
    exact sitemapUpsert_first_match pre post e u d hpre he
  · rw [sitemapUpsert_count, sitemapUpsert_count]
    omega

/-- Witness for C4 at a concrete document: a miss appends one entry; a hit
refreshes the matched entry's date in place. -/
theorem C4_upsert_set_semantics_witness :
    sitemapUpsert [⟨"a", some "2020-01-01"⟩] "u1" "2024-05-01"
      = [⟨"a", some "2020-01-01"⟩] ++ [⟨"u1", some "2024-05-01"⟩] ∧
    sitemapUpsert ([] ++ (⟨"u1", some "2020-01-01"⟩ : UrlEntry) :: []) "u1" "2024-05-01"
      = [] ++ (⟨"u1", (some "2020-01-01").map fun _ => "2024-05-01"⟩ : UrlEntry) :: [] := by
  have h := C4_upsert_set_semantics [⟨"a", some "2020-01-01"⟩] "u1" "2024-05-01"
  exact ⟨h.1 (by decide), h.2.1 [] [] ⟨"u1", some "2020-01-01"⟩ (by simp) rfl⟩

/-- Claim C10: when the first entry matching the URL carries no `lastmod`
child, `Upsert` leaves the document unchanged — the entry stays without a
last-modified date, no date is added to it, and nothing is appended. -/
theorem C10_absent_lastmod_left_absent (pre post : List UrlEntry) (u d : String)
    (hpre : ∀ x ∈ pre, ¬(x.loc = u)) :
    sitemapUpsert (pre ++ (⟨u, none⟩ : UrlEntry) :: post) u d
      = pre ++ (⟨u, none⟩ : UrlEntry) :: post := by
  have h := sitemapUpsert_first_match pre post ⟨u, none⟩ u d hpre rfl
  simpa using h

/-- Witness for C10 at a concrete document. -/
theorem C10_absent_lastmod_witness :
    sitemapUpsert ([⟨"other", some "2019-01-01"⟩] ++ (⟨"u1", none⟩ : UrlEntry) :: [])
        "u1" "2024-05-01"
      = [⟨"other", some "2019-01-01"⟩] ++ (⟨"u1", none⟩ : UrlEntry) :: [] :=
  C10_absent_lastmod_left_absent [⟨"other", some "2019-01-01"⟩] [] "u1" "2024-05-01"
    (by decide)

/-- Counterexample to claim C3: a successful `Remove` mutation re-uploads
the edited document but never pings the search engine. -/
theorem C3_counterexample : ¬ successfulMutationAlwaysPings := fun h =>
  absurd
    (h ⟨some (some [⟨"u1", some "2020-01-01"⟩]), true⟩ "u1" (by decide))
    (by decide)

/-- Claim C3 (amended): after an `Upsert` the edited document is re-uploaded
and the ping attempted, but `Upsert` reports success iff the ping does not
raise — a raising ping is not ignored and flips the reported outcome; a
successful `Remove` re-uploads the edited document and sends no ping at
all. -/
theorem C3_mutation_upload_and_ping (env : UpdateSitemapEnv)
    (envr : RemoveSitemapEnv) (u : String) :
    (update_sitemap env u).1 = !env.pingRaises ∧
    containsSitemapUpload (update_sitemap env u).2 = true ∧
    containsPing (update_sitemap env u).2 = true ∧
    ((remove_from_sitemap envr u).1 = true →
      containsSitemapUpload (remove_from_sitemap envr u).2 = true ∧
      containsPing (remove_from_sitemap envr u).2 = false) := by
  refine ⟨?_, ?_, ?_, ?_⟩
  · cases hp : env.pingRaises <;> simp [update_sitemap, hp]
  · cases hp : env.pingRaises <;>
      simp [update_sitemap, containsSitemapUpload, hp]
  · cases hp : env.pingRaises <;> simp [update_sitemap, containsPing, hp]
  · intro hr
    obtain ⟨ld, up⟩ := envr
    match ld with
    | none => simp [remove_from_sitemap] at hr
    | some none => simp [remove_from_sitemap] at hr
    | some (some d) =>
      by_cases hf : (d.any fun e => e.loc == u) = true
      · simp [remove_from_sitemap, hf, containsSitemapUpload, containsPing]
      · simp [remove_from_sitemap, hf] at hr

/-- Witness for C3 (amended) at concrete environments. -/
theorem C3_mutation_upload_and_ping_witness :
    (update_sitemap ⟨some (some []), true, false, "2024-05-01"⟩ "u1").1 = !false ∧
    containsSitemapUpload
      (remove_from_sitemap ⟨some (some [⟨"u1", some "2020-01-01"⟩]), true⟩ "u1").2
      = true ∧
    containsPing
      (remove_from_sitemap ⟨some (some [⟨"u1", some "2020-01-01"⟩]), true⟩ "u1").2
      = false := by
  have h := C3_mutation_upload_and_ping ⟨some (some []), true, false, "2024-05-01"⟩
    ⟨some (some [⟨"u1", some "2020-01-01"⟩]), true⟩ "u1"
  have h4 := h.2.2.2 (by decide)
  exact ⟨h.1, h4.1, h4.2⟩

/-- Counterexample to claim C7: a connection failure while talking to the
remote store during `Delete` does not propagate a failure boolean — the
bare exception handler reports success. -/
theorem C7_counterexample : ¬ deleteTransferErrorsPropagate := by
  unfold deleteTransferErrorsPropagate
  decide

/-- Claim C7 (amended): every transfer error during `Put` — connection
failure, directory-phase failure (a non-`error_perm` exception from `cwd`,
or `error_perm` with a failed `mkd` recovery), or a failed write — and
every transfer error during `Get` aborts the step and propagates a failure
boolean to the caller; `Delete` reports success for every outcome —
connection, authentication and permission failures included, not only the
idempotent not-found case. -/
theorem C7_transfer_error_propagation (ep : FtpPutEnv) (eg : FtpGetEnv)
    (od : DeleteOutcome) :
    (ep.connectOk = false → upload_file_ftp ep = false) ∧
    (ep.cwdResult = CwdOutcome.otherError → upload_file_ftp ep = false) ∧
    (ep.cwdResult = CwdOutcome.permError → ep.mkdOk = false →
      upload_file_ftp ep = false) ∧
    (ep.storOk = false → upload_file_ftp ep = false) ∧
    (eg.connectOk = false → download_from_cpanel eg = false) ∧
    (eg.cwdOk = false → download_from_cpanel eg = false) ∧
    (eg.retrOk = false → download_from_cpanel eg = false) ∧
    delete_file_ftp od = true := by
  obtain ⟨c, w, m, st⟩ := ep
  refine ⟨?_, ?_, ?_, ?_, ?_, ?_, ?_, ?_⟩
  · intro h; simp at h; simp [upload_file_ftp, h]
  · intro h; simp at h; cases c <;> simp [upload_file_ftp, h]
  · intro h hm; simp at h hm; cases c <;> simp [upload_file_ftp, h, hm]
  · intro h; simp at h; cases c <;> cases w <;> cases m <;>
      simp [upload_file_ftp, h]
  · intro h; simp [download_from_cpanel, h]
  · intro h; simp [download_from_cpanel, h]
  · intro h; simp [download_from_cpanel, h]
  · cases od <;> rfl

/-- Witness for C7 (amended): each kind of transfer error exhibited at a
concrete environment. -/
theorem C7_transfer_error_propagation_witness :
    upload_file_ftp ⟨false, CwdOutcome.ok, true, true⟩ = false ∧
    upload_file_ftp ⟨true, CwdOutcome.otherError, true, true⟩ = false ∧
    upload_file_ftp ⟨true, CwdOutcome.permError, false, true⟩ = false ∧
    upload_file_ftp ⟨true, CwdOutcome.ok, true, false⟩ = false ∧
    download_from_cpanel ⟨false, true, true⟩ = false ∧
    download_from_cpanel ⟨true, false, true⟩ = false ∧
    download_from_cpanel ⟨true, true, false⟩ = false ∧
    delete_file_ftp DeleteOutcome.connectionError = true := by
  have h1 := C7_transfer_error_propagation ⟨false, CwdOutcome.ok, true, true⟩
    ⟨false, true, true⟩ DeleteOutcome.connectionError
  have h2 := C7_transfer_error_propagation ⟨true, CwdOutcome.otherError, true, true⟩
    ⟨true, false, true⟩ DeleteOutcome.connectionError
  have h3 := C7_transfer_error_propagation ⟨true, CwdOutcome.permError, false, true⟩
    ⟨true, true, false⟩ DeleteOutcome.connectionError
  have h4 := C7_transfer_error_propagation ⟨true, CwdOutcome.ok, true, false⟩
    ⟨false, true, true⟩ DeleteOutcome.connectionError
  exact ⟨h1.1 rfl, h2.2.1 rfl, h3.2.2.1 rfl rfl, h4.2.2.2.1 rfl,
         h1.2.2.2.2.1 rfl, h2.2.2.2.2.2.1 rfl, h3.2.2.2.2.2.2.1 rfl,
         h1.2.2.2.2.2.2.2⟩

/-- Counterexample to claim C8: when the directory exists (the first `cwd`
succeeds) and the write fails, `Put` does report failure. -/
theorem C8_counterexample : ¬ putToleratesWriteFailure := fun h =>
  absurd rfl (h ⟨true, CwdOutcome.ok, true, false⟩ rfl rfl rfl)

/-- Claim C8 (amended): `Put` ensures the remote directory (entering it,
creating it when the entry fails with a permission error) and reports
failure as soon as the connection, the directory phase, or the write
fails — a write failure alone is reported as failure even when the
directory exists or was created. -/
theorem C8_put_failure_condition (env : FtpPutEnv) :
    upload_file_ftp env = (env.connectOk && dirEnsured env && env.storOk) := by
  obtain ⟨c, w, m, st⟩ := env
  cases c <;> cases w <;> cases m <;> cases st <;> rfl

/-- Helper: once `published_at` is set, no later update/patch changes it. -/
theorem foldl_applyOp_keeps_published (ops : List ArticleOp) (a : Article)
    (v : Nat) (h : a.published_at = some v) :
    (ops.foldl applyOp a).published_at = some v := by
  induction ops generalizing a with
  | nil => exact h
  | cons op rest ih =>
    refine ih (applyOp a op) ?_
    cases op <;> simp [applyOp, h]

/-- Helper: while `published_at` is unset, the fold sets it at the first
operation that publishes the article. -/
theorem foldl_applyOp_from_none (ops : List ArticleOp) (a : Article)
    (h : a.published_at = none) :
    (ops.foldl applyOp a).published_at = firstPublishTime ops := by
  induction ops generalizing a with
  | nil => simpa [firstPublishTime] using h
  | cons op rest ih =>
    by_cases hp : opStatus op = Status.published
    · have hset : (applyOp a op).published_at = some (opTime op) := by
        cases op <;> simp_all [applyOp, opStatus, opTime]
      simp only [List.foldl_cons, firstPublishTime, if_pos hp]
      exact foldl_applyOp_keeps_published rest (applyOp a op) (opTime op) hset
    · have hkeep : (applyOp a op).published_at = none := by
        cases op <;> simp_all [applyOp, opStatus]
      simp only [List.foldl_cons, firstPublishTime, if_neg hp]
      exact ih (applyOp a op) hkeep

/-- Claim C9: over any sequence of update/patch operations following a
create, `published_at` equals the time of the first transition into
Published — the create time when created Published, otherwise the time of
the first update/patch that sets status Published — and it is never
cleared or overwritten afterwards (republishing and transitions back to
Draft included). -/
theorem C9_published_at_first_publish (s : Status) (slug : String) (t0 : Nat)
    (ops : List ArticleOp) :
    (ops.foldl applyOp (new_article_row s slug t0)).published_at
      = if s = Status.published then some t0 else firstPublishTime ops := by
  by_cases hs : s = Status.published
  · simp only [if_pos hs]
    exact foldl_applyOp_keeps_published ops _ t0 (by simp [new_article_row, hs])
  · simp only [if_neg hs]
    exact foldl_applyOp_from_none ops _ (by simp [new_article_row, hs])

/-- Counterexample to claim C6: with a failing render, the create request
for a Published article still answers success — the publish pipeline runs
as a background task after the response, so its failure is never surfaced
as an HTTP error from the create request. -/
theorem C6_counterexample : ¬ createSurfacesPublishFailure := fun h =>
  absurd rfl
    (h ⟨false, true, true, true⟩ ⟨DeleteOutcome.deleted, true, true⟩
      "Published" "ghid-fiscal-2024" (by decide) (by decide))

/-- Claim C6 (amended): on every path — create included — render/transfer
failures of the pipelines are invisible to the end user: each endpoint
enqueues the pipelines as background tasks after committing, its HTTP
response is independent of the pipeline outcomes, and whenever validation
passes the request reports success. -/
theorem C6_failures_never_surfaced (penv penv2 : PublishEnv)
    (uenv uenv2 : UnpubEnv) (slugExists slugTaken : Bool) (oldStatus : Status)
    (rawStatus slug oldSlug newSlug : String) :
    (create_request penv uenv slugExists rawStatus slug).1
      = (create_request penv2 uenv2 slugExists rawStatus slug).1 ∧
    (create_request penv uenv false rawStatus slug).1 = HttpResponse.success ∧
    (update_request penv uenv slugTaken oldStatus oldSlug newSlug rawStatus).1
      = (update_request penv2 uenv2 slugTaken oldStatus oldSlug newSlug rawStatus).1 ∧
    (update_request penv uenv false oldStatus oldSlug newSlug rawStatus).1
      = HttpResponse.success ∧
    (patch_request penv uenv oldStatus slug rawStatus).1 = HttpResponse.success ∧
    (delete_request penv uenv oldStatus slug).1 = HttpResponse.success := by
  refine ⟨?_, rfl, ?_, ?_, rfl, rfl⟩
  · by_cases h : slugExists = true <;> simp [create_request, h]
  · by_cases h : newSlug ≠ oldSlug ∧ slugTaken = true <;> simp [update_request, h]
  · simp [update_request]
